import Mathlib

/-!
# Verification of the SkillScout screening-interview engine

Shallow embedding of the interview state machine and question-scheduling
engine of the SkillScout repository (`steamlit_app.py`, `llm_client.py`),
with theorems settling the frozen claims about its specification.

Python dictionaries are modelled as insertion-ordered association lists,
Python strings as Lean `String`, Python `float` arithmetic on the short
decimals accepted by the years parser as exact rational arithmetic, and the
external LLM backend as an explicit parameter supplying each call's outcome.
-/

namespace SkillScout

/-! ## Generic helpers: association lists and substring search -/

/-- Look up a key in an insertion-ordered association list (Python `dict.get`). -/
def alistGet {α : Type} : List (String × α) → String → Option α
  | [], _ => none
  | p :: t, k => if p.1 == k then some p.2 else alistGet t k

/-- Look up a list-valued key, defaulting to `[]` (Python `d.get(k, [])`). -/
def alistGetD (m : List (String × List String)) (k : String) : List String :=
  (alistGet m k).getD []

/-- Look up a string-valued key, defaulting to `""` (Python `d.get(k, "")`). -/
def dictGetD (m : List (String × String)) (k : String) : String :=
  (alistGet m k).getD ""

/-- Python `d[k] = v`: update the (unique) matching key in place, else insert
at the end. -/
def alistSet {α : Type} : List (String × α) → String → α → List (String × α)
  | [], k, v => [(k, v)]
  | p :: t, k, v => if p.1 == k then (p.1, v) :: t else p :: alistSet t k v

/-- Python `d.setdefault(k, []).append(x)` on a list-valued dict. -/
def setdefaultAppend : List (String × List String) → String → String →
    List (String × List String)
  | [], k, x => [(k, [x])]
  | p :: t, k, x =>
    if p.1 == k then (p.1, p.2 ++ [x]) :: t else p :: setdefaultAppend t k x

/-- Python substring containment `pat in hay`. -/
def strContains (hay pat : String) : Bool :=
  hay.toList.tails.any (fun t => pat.toList.isPrefixOf t)

/-- First index `i`, scanning `i = start, start+1, ...` for `fuel` steps, with `p i`;
this is the faithful translation of a Python `for`/`break` search loop. -/
def firstMatch (p : Nat → Bool) : Nat → Nat → Option Nat
  | _, 0 => none
  | i, fuel + 1 => if p i then some i else firstMatch p (i + 1) fuel

/-- Python `min` over a nonempty list of naturals (`0` on `[]`, which the
source never reaches because it guards against an empty category list). -/
def listMin : List Nat → Nat
  | [] => 0
  | x :: xs => xs.foldl Nat.min x

/-- Split a character list at the first occurrence of `ch`, returning the
parts before and after it. -/
def splitFirst (ch : Char) : List Char → Option (List Char × List Char)
  | [] => none
  | c :: t =>
    if c == ch then some ([], t)
    else (splitFirst ch t).map (fun p => (c :: p.1, p.2))

/-! ## Constants from `steamlit_app.py` -/

/-- Global hard cap for technical questions. -/
def MAX_TOTAL_QUESTIONS : Nat := 15

/-- Exit keywords checked by substring containment on every turn. -/
def EXIT_KEYWORDS : List String := ["exit", "quit", "bye", "goodbye", "stop", "end"]

/-- Ordered list of required profile fields. -/
def REQUIRED_FIELDS : List String :=
  ["full_name", "email", "phone", "years_experience",
   "desired_positions", "current_location", "tech_stack"]

/-- Human-readable labels for the profile fields. -/
def FIELD_LABELS : List (String × String) :=
  [("full_name", "Full name"),
   ("email", "Email address"),
   ("phone", "Phone number"),
   ("years_experience", "Years of professional experience"),
   ("desired_positions", "Desired role(s) or job title(s)"),
   ("current_location", "Current location (city, country)"),
   ("tech_stack", "Tech stack (technologies, tools, frameworks)")]

/-- Rule-based skill categorization table (lowercase token -> category). -/
def SKILL_CATEGORY_RULES : List (String × String) :=
  [("python", "Backend"), ("java", "Backend"), ("c#", "Backend"),
   ("csharp", "Backend"), ("node", "Backend"), ("node.js", "Backend"),
   ("nodejs", "Backend"), ("spring", "Backend"), ("django", "Backend"),
   ("fastapi", "Backend"), (".net", "Backend"), ("dotnet", "Backend"),
   ("php", "Backend"), ("laravel", "Backend"), ("express", "Backend"),
   ("nest", "Backend"), ("nest.js", "Backend"), ("nestjs", "Backend"),
   ("golang", "Backend"), ("go", "Backend"), ("ruby", "Backend"),
   ("rails", "Backend"),
   ("javascript", "Frontend"), ("typescript", "Frontend"), ("react", "Frontend"),
   ("react.js", "Frontend"), ("reactjs", "Frontend"), ("vue", "Frontend"),
   ("vue.js", "Frontend"), ("vuejs", "Frontend"), ("angular", "Frontend"),
   ("svelte", "Frontend"), ("next.js", "Frontend"), ("nextjs", "Frontend"),
   ("nuxt", "Frontend"), ("html", "Frontend"), ("css", "Frontend"),
   ("tailwind", "Frontend"), ("bootstrap", "Frontend"),
   ("pandas", "Data/ML"), ("numpy", "Data/ML"), ("scikit-learn", "Data/ML"),
   ("sklearn", "Data/ML"), ("tensorflow", "Data/ML"), ("pytorch", "Data/ML"),
   ("keras", "Data/ML"), ("mlflow", "Data/ML"), ("airflow", "Data/ML"),
   ("spark", "Data/ML"), ("pyspark", "Data/ML"), ("sql", "Data/ML"),
   ("postgres", "Data/ML"), ("postgresql", "Data/ML"), ("mysql", "Data/ML"),
   ("bigquery", "Data/ML"), ("snowflake", "Data/ML"), ("databricks", "Data/ML"),
   ("lookml", "Data/ML"), ("dbt", "Data/ML"),
   ("docker", "DevOps/Cloud"), ("kubernetes", "DevOps/Cloud"), ("k8s", "DevOps/Cloud"),
   ("aws", "DevOps/Cloud"), ("azure", "DevOps/Cloud"), ("gcp", "DevOps/Cloud"),
   ("google cloud", "DevOps/Cloud"), ("terraform", "DevOps/Cloud"),
   ("ansible", "DevOps/Cloud"), ("jenkins", "DevOps/Cloud"),
   ("github actions", "DevOps/Cloud"), ("gitlab ci", "DevOps/Cloud"),
   ("ci/cd", "DevOps/Cloud"), ("linux", "DevOps/Cloud"),
   ("pytest", "QA/Testing"), ("junit", "QA/Testing"), ("selenium", "QA/Testing"),
   ("cypress", "QA/Testing"), ("playwright", "QA/Testing"), ("postman", "QA/Testing"),
   ("restassured", "QA/Testing"),
   ("android", "Mobile"), ("kotlin", "Mobile"), ("swift", "Mobile"),
   ("ios", "Mobile"), ("react native", "Mobile"), ("flutter", "Mobile")]

/-- Fixed priority order used to sort present categories. -/
def CATEGORY_PRIORITY : List String :=
  ["Backend", "Data/ML", "Frontend", "DevOps/Cloud", "QA/Testing", "Mobile", "Other"]

/-- ASCII apostrophe, kept out of string literals. -/
def apos : String := String.mk [Char.ofNat 39]

/-- Affirmative consent keywords (`yes_keywords` in `main`). -/
def yes_keywords : List String :=
  ["yes", "y", "yeah", "yep", "sure", "of course", "i agree", "i consent"]

/-- Negative consent keywords (`no_keywords` in `main`). -/
def no_keywords : List String :=
  ["no", "n", "nope", "i do not", "dont", "don" ++ apos ++ "t"]

/-! ## Pure validators and parsers -/

/-- Python `\s` whitespace characters (ASCII range; the claims only involve
ASCII input). -/
def pyIsSpace (c : Char) : Bool :=
  c == ' ' || c == '\t' || c == '\n' || c == '\x0d' || c == '\x0c' || c == '\x0b'

/-- Strip leading and trailing whitespace from a character list. -/
def trimChars (l : List Char) : List Char :=
  ((l.dropWhile pyIsSpace).reverse.dropWhile pyIsSpace).reverse

/-- Python `str.strip()`. -/
def pyStrip (s : String) : String :=
  String.mk (trimChars s.toList)

/-- Python `str.lower()` (ASCII case folding, which covers all inputs the
claims exercise). -/
def pyLower (s : String) : String :=
  String.mk (s.toList.map Char.toLower)

/-- Split a character list at every character satisfying `p`
(Python `str.split(sep)` semantics: empty parts are kept). -/
def splitOnP (p : Char → Bool) : List Char → List (List Char)
  | [] => [[]]
  | c :: t =>
    match splitOnP p t with
    | [] => if p c then [[], []] else [[c]]
    | h :: r => if p c then [] :: h :: r else (c :: h) :: r

/-- `strip_label_prefix`: drop everything up to the first `:` (if any), then
strip (`text.split(":", 1)[1].strip()`). -/
def strip_label (text : String) : String :=
  match splitFirst ':' text.toList with
  | none => pyStrip text
  | some (_, aft) => String.mk (trimChars aft)

/-- Characters allowed by `[^@\s]` in the email regex. -/
def isEmailChar (c : Char) : Bool :=
  c != '@' && !(pyIsSpace c)

/-- True when a character list, viewed as the part after the `@`, can be split
as `b ++ "." ++ c` with `b`, `c` nonempty: a `.` at an interior position. -/
def hasInteriorDot (l : List Char) : Bool :=
  match l with
  | [] => false
  | _ :: t => t.dropLast.contains '.'

/-- `is_valid_email`: full-string match of `^[^@\s]+@[^@\s]+\.[^@\s]+$` after
`strip_label_prefix` (trailing-newline matches of `$` cannot arise because
stripping already removed trailing whitespace). -/
def is_valid_email (text : String) : Bool :=
  let t := (strip_label text).toList
  match splitFirst '@' t with
  | none => false
  | some (a, rest) =>
    !a.isEmpty && a.all isEmailChar && rest.all isEmailChar && hasInteriorDot rest

/-- `normalize_phone`: delete spaces and dashes, keep a leading `+`, then keep
only digits (`re.sub(r"\D", "", ...)`). -/
def normalize_phone (text : String) : String :=
  let t := (strip_label text).toList.filter (fun c => !(c == ' ') && !(c == '-'))
  match t with
  | '+' :: rest => String.mk ('+' :: rest.filter Char.isDigit)
  | _ => String.mk (t.filter Char.isDigit)

/-- `is_valid_phone`: 8 to 15 digits after normalization (Python `str.isdigit`
is false on the empty string). -/
def is_valid_phone (text : String) : Bool :=
  let digits :=
    match (normalize_phone text).toList with
    | '+' :: rest => rest
    | l => l
  digits.all Char.isDigit && !digits.isEmpty
    && 8 ≤ digits.length && digits.length ≤ 15

/-- Value of a list of decimal digit characters. -/
def digitsToNat (ds : List Char) : Nat :=
  ds.foldl (fun a c => 10 * a + (c.toNat - 48)) 0

/-- Leftmost match of `(\d+(\.\d+)?)`: the first maximal digit run, plus a
fractional digit run when a `.` with at least one digit follows. -/
def firstNumber : List Char → Option (List Char × List Char)
  | [] => none
  | c :: t =>
    if c.isDigit then
      let ds := (c :: t).takeWhile Char.isDigit
      let rest := (c :: t).dropWhile Char.isDigit
      match rest with
      | '.' :: r2 =>
        let fs := r2.takeWhile Char.isDigit
        if fs.isEmpty then some (ds, []) else some (ds, fs)
      | _ => some (ds, [])
    else firstNumber t

/-- Python 3 `round` of the nonnegative exact value `num / den` to an
integer: round half to even. Exact decimal semantics; the `float` detour of
the source is value-preserving at every precision the claims exercise. -/
def roundHalfEven (num den : Nat) : Nat :=
  if 2 * (num % den) < den then num / den
  else if den < 2 * (num % den) then num / den + 1
  else if (num / den) % 2 = 0 then num / den else num / den + 1

/-- `parse_years_experience`: first number in the lowercased, label-stripped
input, clamped to `[0, 40]` (the `max` with `0` is a no-op on a nonnegative
parse), rounded half to even. -/
def parse_years_experience (raw : String) : Option Nat :=
  match firstNumber (pyLower (strip_label raw)).toList with
  | none => none
  | some (ds, fs) =>
    some (roundHalfEven
      (min (digitsToNat ds * 10 ^ fs.length + digitsToNat fs) (40 * 10 ^ fs.length))
      (10 ^ fs.length))

/-- `derive_seniority_label`: fixed thresholds on the parsed years. -/
def derive_seniority_label (years : Nat) : String :=
  if years < 2 then "Junior"
  else if years < 6 then "Mid-level"
  else "Senior"

/-- Case-insensitive de-duplication preserving first-seen order and casing. -/
def dedupCaseIns (skills : List String) : List String :=
  (skills.foldl
    (fun (acc : List String × List String) s =>
      let l := pyLower s
      if acc.1.contains l then acc else (acc.1 ++ [l], acc.2 ++ [s]))
    ([], [])).2

/-- `parse_tech_stack`: tokenize on `,`/`;` (whitespace fallback), trim, drop
empties, de-duplicate case-insensitively preserving first occurrences. -/
def parse_tech_stack (raw_tech : String) : List String :=
  let text := (strip_label raw_tech).toList
  let parts := ((splitOnP (fun c => c == ',' || c == ';') text).map
      (fun p => String.mk (trimChars p))).filter (fun p => !p.isEmpty)
  let parts :=
    if parts.isEmpty then
      ((splitOnP pyIsSpace text).map (fun p => String.mk (trimChars p))).filter
        (fun p => !p.isEmpty)
    else parts
  dedupCaseIns parts

/-- `categorize_skills`: look up each stripped skill's lowercase form in the
static table ("Other" fallback), then de-duplicate within each category. -/
def categorize_skills (tech_list : List String) : List (String × List String) :=
  let categories := tech_list.foldl
    (fun m tech =>
      let label := pyStrip tech
      if label.isEmpty then m
      else
        let category := (alistGet SKILL_CATEGORY_RULES (pyLower label)).getD "Other"
        setdefaultAppend m category label)
    []
  categories.map (fun p => (p.1, dedupCaseIns p.2))

/-- `compute_category_order`: present categories in priority order, then any
remaining keys in first-seen order. -/
def compute_category_order (categories : List (String × List String)) : List String :=
  let present := categories.map (·.1)
  let ordered := CATEGORY_PRIORITY.filter (fun c => present.contains c)
  present.foldl (fun acc c => if acc.contains c then acc else acc ++ [c]) ordered

/-! ## Session state (`st.session_state`) and message helpers -/

/-- Top-level phase of the interview state machine (`st.session_state.state`). -/
inductive Phase
  | collecting_info
  | awaiting_consent
  | screening
  | ended
deriving DecidableEq, Repr

/-- A persisted candidate profile record, as assembled at consent time. -/
structure CandidateProfile where
  candidate_data : List (String × String)
  role_summary : String
  skill_summary : String
  seniority_label : String
  skill_categories : List (String × List String)
deriving DecidableEq, Repr

/-- The mutable session state. The `store` field models the contents of the
external `candidates.json` persistence file, which the source only appends to. -/
structure SessionState where
  total_questions_asked : Nat
  asked_questions_by_category : List (String × List String)
  messages : List (String × String)
  candidate_data : List (String × String)
  role_summary : String
  skill_summary : String
  seniority_label : String
  skill_categories : List (String × List String)
  category_order : List String
  state : Phase
  current_field_index : Nat
  consent_status : String
  current_category_index : Nat
  category_question_index : Nat
  answers : List (String × List String)
  awaiting_followup : Bool
  last_category_answered : Option String
  store : List CandidateProfile
deriving DecidableEq, Repr

/-- `init_session_state`: the fresh session (empty persistence store). -/
def init_session_state : SessionState where
  total_questions_asked := 0
  asked_questions_by_category := []
  messages := []
  candidate_data := REQUIRED_FIELDS.map (fun k => (k, ""))
  role_summary := ""
  skill_summary := ""
  seniority_label := "Unknown"
  skill_categories := []
  category_order := []
  state := .collecting_info
  current_field_index := 0
  consent_status := "unknown"
  current_category_index := 0
  category_question_index := 0
  answers := []
  awaiting_followup := false
  last_category_answered := none
  store := []

/-- `add_message`: append a `{role, content}` entry to the transcript. -/
def add_message (s : SessionState) (role content : String) : SessionState :=
  { s with messages := s.messages ++ [(role, content)] }

/-- `candidate_name`: stripped full name, or `"there"`. -/
def candidate_name (s : SessionState) : String :=
  let n := pyStrip (dictGetD s.candidate_data "full_name")
  if n.isEmpty then "there" else n

/-- `candidate_first_name`: first whitespace-separated token of the full name. -/
def candidate_first_name (s : SessionState) : String :=
  let full := pyStrip (dictGetD s.candidate_data "full_name")
  if full.isEmpty then ""
  else ((((splitOnP pyIsSpace full.toList).map String.mk).filter (fun p => !p.isEmpty)).headD "")

/-- `completion_message`: closing text, with an extra sentence when the hard
cap was reached. -/
def completion_message (s : SessionState) (max_reached : Bool) : String :=
  let first := candidate_first_name s
  let pre := if !first.isEmpty then "Thank you, " ++ first ++ ". " else "Thank you. "
  let base := pre ++
    "Your screening is now complete. A recruiter will review your answers and, " ++
    "if there’s a suitable match, contact you about next steps. " ++
    "You can close this window now."
  if max_reached then
    base ++ " (We’ve reached the maximum number of questions for this session.)"
  else base

/-- `check_exit_keyword`: substring containment of any exit keyword in the
lowercased, stripped input. -/
def check_exit_keyword (user_input : String) : Bool :=
  let lower := pyStrip (pyLower user_input)
  EXIT_KEYWORDS.any (fun word => strContains lower word)

/-- `get_current_category`: the category the pointer currently selects, if valid. -/
def get_current_category (s : SessionState) : Option String :=
  if s.category_order.isEmpty then none
  else if s.current_category_index < s.category_order.length then
    some (s.category_order.getD s.current_category_index "")
  else none

/-- Python truthiness of `last_category_answered` (`None` and `""` are falsy). -/
def truthyLast : Option String → Bool
  | none => false
  | some c => !c.isEmpty

/-- `prepare_screening_after_consent`: derive categories (with the
`{"Other": placeholder}` substitution when classification is empty) and reset
all screening counters and histories. -/
def prepare_screening_after_consent (s : SessionState) : SessionState :=
  let s :=
    if s.skill_categories.isEmpty then
      { s with skill_categories :=
          categorize_skills (parse_tech_stack (dictGetD s.candidate_data "tech_stack")) }
    else s
  let categories :=
    if s.skill_categories.isEmpty then
      let tech_list := parse_tech_stack (dictGetD s.candidate_data "tech_stack")
      [("Other", if tech_list.isEmpty then ["(no technologies provided)"] else tech_list)]
    else s.skill_categories
  let order := compute_category_order categories
  { s with
    skill_categories := categories
    category_order := order
    current_category_index := 0
    category_question_index := 0
    total_questions_asked := 0
    asked_questions_by_category := order.map (fun cat => (cat, ([] : List String)))
    answers := order.map (fun cat => (cat, ([] : List String)))
    awaiting_followup := false
    last_category_answered := none }

/-- `ask_next_screening_question`. The Question Agent call is the parameter
`gw`: `some q` models the gateway returning question text `q`, `none` models
the gateway raising (its post-retry `RuntimeError`), in which case the
procedure aborts with only the mutations made before the call. -/
def ask_next_screening_question (gw : Option String) (s : SessionState) : SessionState :=
  if s.total_questions_asked ≥ MAX_TOTAL_QUESTIONS then
    { (add_message s "assistant" (completion_message s true)) with state := .ended }
  else if s.category_order.isEmpty then
    { (add_message s "assistant" (completion_message s false)) with state := .ended }
  else
    let categories := s.category_order
    let n := categories.length
    let asked0 :=
      if s.asked_questions_by_category.isEmpty then
        categories.map (fun cat => (cat, ([] : List String)))
      else s.asked_questions_by_category
    let s0 := { s with asked_questions_by_category := asked0 }
    let cond := s0.awaiting_followup && truthyLast s0.last_category_answered
    let cnt := fun cat => (alistGetD asked0 cat).length
    let minc := listMin (categories.map cnt)
    let start := s0.current_category_index
    let sel :=
      match firstMatch (fun off => cnt (categories.getD ((start + off) % n) "") == minc) 0 n with
      | some off => (start + off) % n
      | none => 0
    let category :=
      if cond then s0.last_category_answered.getD "" else categories.getD sel ""
    let s1 :=
      if cond then { s0 with awaiting_followup := false }
      else { s0 with current_category_index := sel }
    match gw with
    | none => s1
    | some q =>
      let question_number_for_cat := (alistGetD s1.asked_questions_by_category category).length + 1
      add_message
        { s1 with
          category_question_index := question_number_for_cat - 1
          total_questions_asked := s1.total_questions_asked + 1
          asked_questions_by_category :=
            setdefaultAppend s1.asked_questions_by_category category q }
        "assistant" q

/-- `advance_to_next_field`: bump the field cursor, clamped to the last field. -/
def advance_to_next_field (s : SessionState) : SessionState :=
  let i := s.current_field_index + 1
  { s with current_field_index :=
      if i ≥ REQUIRED_FIELDS.length then REQUIRED_FIELDS.length - 1 else i }

/-- `ask_next_field_question`: prompt for the current field (the lookup
default is unreachable because every required field has a label). -/
def ask_next_field_question (s : SessionState) : SessionState :=
  if s.current_field_index ≥ REQUIRED_FIELDS.length then s
  else
    let field_key := REQUIRED_FIELDS.getD s.current_field_index ""
    let label := (alistGet FIELD_LABELS field_key).getD
      (String.mk (field_key.toList.map (fun c => if c == '_' then ' ' else c)))
    add_message s "assistant" ("Please provide your **" ++ label ++ "**.")

/-- Total number of recorded answers (`sum(len(v) for v in answers.values())`). -/
def total_answer_count (answers : List (String × List String)) : Nat :=
  (answers.map (fun p => p.2.length)).foldl (· + ·) 0

/-- Handling of one user turn in the `collecting_info` phase. Each source
branch ends in `st.rerun()`, so control never falls through to a later phase
block within the same turn. `gwRole`/`gwSkill` supply the role-summary and
skill-summary generation outcomes (`none` models the call raising; both call
sites catch the exception and store `""`). -/
def collecting_turn (gwRole gwSkill : Option String) (s : SessionState) (user_input : String) :
    SessionState :=
  let field_key := REQUIRED_FIELDS.getD s.current_field_index ""
  let raw := pyStrip user_input
  if field_key == "full_name" then
    let value := strip_label raw
    let s := { s with candidate_data := alistSet s.candidate_data field_key value }
    let s := add_message s "assistant" ("Nice to meet you, **" ++ candidate_name s ++ "** 👋")
    ask_next_field_question (advance_to_next_field s)
  else if field_key == "email" then
    if !is_valid_email raw then
      add_message s "assistant"
        ("That doesn’t look like a valid email. " ++
         "Please enter something like `name@example.com`.")
    else
      let value := strip_label raw
      let s := { s with candidate_data := alistSet s.candidate_data field_key value }
      ask_next_field_question (advance_to_next_field s)
  else if field_key == "phone" then
    if !is_valid_phone raw then
      add_message s "assistant"
        ("That doesn’t look like a valid phone number. " ++
         "Please enter 8–15 digits (you can start with `+` for country code).")
    else
      let value := normalize_phone raw
      let s := { s with candidate_data := alistSet s.candidate_data field_key value }
      ask_next_field_question (advance_to_next_field s)
  else if field_key == "years_experience" then
    match parse_years_experience raw with
    | none =>
      add_message s "assistant"
        ("Could you enter your experience roughly as a number? " ++
         "For example: `1`, `2.5 years`, or `3 yrs`.")
    | some years =>
      let s := { s with
        candidate_data := alistSet s.candidate_data field_key (toString years)
        seniority_label := derive_seniority_label years }
      let s := add_message s "assistant"
        ("Got it – I" ++ apos ++ "ll treat you as **" ++ s.seniority_label ++
         "** based on your experience.")
      ask_next_field_question (advance_to_next_field s)
  else if field_key == "desired_positions" then
    let value := strip_label raw
    let s := { s with candidate_data := alistSet s.candidate_data field_key value }
    ask_next_field_question (advance_to_next_field s)
  else if field_key == "current_location" then
    let value := strip_label raw
    let s := { s with candidate_data := alistSet s.candidate_data field_key value }
    ask_next_field_question (advance_to_next_field s)
  else if field_key == "tech_stack" then
    let value := strip_label raw
    let s := { s with candidate_data := alistSet s.candidate_data field_key value }
    let tech_list := parse_tech_stack value
    if tech_list.isEmpty then
      add_message s "assistant"
        ("I couldn" ++ apos ++ "t detect any technologies. " ++
         "Please enter at least one, e.g. `Python, Django`.")
    else
      let categories := categorize_skills tech_list
      let s := { s with
        skill_categories := categories
        category_order := compute_category_order categories
        role_summary := gwRole.getD ""
        skill_summary := gwSkill.getD "" }
      let s := add_message s "assistant"
        ("Thanks for sharing your profile and tech stack.\n\n" ++
         "Before we continue, do you consent to **storing your profile** " ++
         "(name, experience, and tech stack) for this demo screening? " ++
         "Please reply **Yes** or **No**.")
      { s with state := .awaiting_consent }
  else s

/-- Handling of one user turn in the `awaiting_consent` phase. The affirmative
keyword set is checked before the negative one, both by substring containment. -/
def consent_turn (gwQ : Option String) (s : SessionState) (user_input : String) :
    SessionState :=
  let answer := pyLower (pyStrip user_input)
  if yes_keywords.any (fun k => strContains answer k) then
    let profile : CandidateProfile :=
      ⟨s.candidate_data, s.role_summary, s.skill_summary, s.seniority_label,
       s.skill_categories⟩
    let s := { s with consent_status := "granted", store := s.store ++ [profile] }
    let s := add_message s "assistant"
      ("Thank you for your consent. I’ve stored your profile for this demo.\n\n" ++
       "Now I’ll ask you a few technical questions based on your skills.")
    let s := { s with state := .screening }
    ask_next_screening_question gwQ (prepare_screening_after_consent s)
  else if no_keywords.any (fun k => strContains answer k) then
    let s := { s with consent_status := "denied" }
    let s := add_message s "assistant"
      ("Understood – I will **not** store your profile.\n\n" ++
       "We can still proceed with a brief technical screening for practice. Let" ++
       apos ++ "s continue.")
    let s := { s with state := .screening }
    ask_next_screening_question gwQ (prepare_screening_after_consent s)
  else
    add_message s "assistant"
      ("I didn’t clearly understand your consent choice. " ++
       "Please reply with **Yes** if you agree, or **No** if you do not.")

/-- The occasional acknowledgment after an answer: after exactly the first
answer of the session, and thereafter after every fifth cumulative answer. -/
def maybe_acknowledge (s : SessionState) : SessionState :=
  if total_answer_count s.answers == 1 then
    add_message s "assistant" "Thanks, I’ve noted your answer."
  else if total_answer_count s.answers % 5 == 0 then
    add_message s "assistant"
      "Thanks, that helps me understand your experience. Here’s the next question."
  else s

/-- Handling of one user turn in the `screening` phase: record the answer
against the current category, arm the follow-up flag, occasionally
acknowledge, then schedule the next question. -/
def screening_turn (gwQ : Option String) (s : SessionState) (user_input : String) :
    SessionState :=
  match get_current_category s with
  | none => { (add_message s "assistant" (completion_message s false)) with state := .ended }
  | some category =>
    ask_next_screening_question gwQ
      (maybe_acknowledge
        { s with
          answers := setdefaultAppend s.answers category (pyStrip user_input)
          awaiting_followup := true
          last_category_answered := some category
          category_question_index := s.category_question_index + 1 })

/-- One full user turn of `main` after the chat input is read: record the user
message, apply the global exit check, then dispatch on the current phase.
`main` returns before reading input when the phase is `ended`, so the `ended`
case (which would fall through to the fallback agent in the source) is
unreachable and returns the state unchanged. -/
def process_turn (gwQ gwRole gwSkill : Option String) (s : SessionState)
    (user_input : String) : SessionState :=
  let s := add_message s "user" user_input
  if check_exit_keyword user_input then
    { (add_message s "assistant" (completion_message s false)) with state := .ended }
  else
    match s.state with
    | .collecting_info => collecting_turn gwRole gwSkill s user_input
    | .awaiting_consent => consent_turn gwQ s user_input
    | .screening => screening_turn gwQ s user_input
    | .ended => s

/-! ## Generation Gateway (`llm_client._safe_chat_completion`) -/

/-- One backend call outcome: a returned message, or one of the exception
types the OpenAI client raises (`RateLimitError`, `APITimeoutError`, and
`APIError`, the base class of the client's request failures). -/
inductive BackendOutcome
  | ok (text : String)
  | rateLimit
  | apiTimeout
  | apiError
deriving DecidableEq, Repr

/-- Python exceptions crossing the gateway code: the three backend exception
types, or the gateway's own post-retry `RuntimeError`. -/
inductive PyExc
  | rateLimit
  | apiTimeout
  | apiError
  | runtime (msg : String)
deriving DecidableEq, Repr

/-- The body of one `try` iteration: `client.chat.completions.create(...)`
either returns text or raises a backend exception. -/
def attempt_call (o : BackendOutcome) : Except PyExc String :=
  match o with
  | .ok text => .ok (pyStrip text)
  | .rateLimit => .error .rateLimit
  | .apiTimeout => .error .apiTimeout
  | .apiError => .error .apiError

/-- True for the exception classes named in the two `except` clauses. -/
def handled_exc (e : PyExc) : Bool :=
  match e with
  | .rateLimit => true
  | .apiTimeout => true
  | .apiError => true
  | .runtime _ => false

/-- Message of the `RuntimeError` raised once retries are exhausted. -/
def retry_fail_msg : String :=
  "LLM request failed after retries. Likely due to sustained rate limits or API instability."

/-- The retry loop of `_safe_chat_completion`: attempt `fuel` more calls
(outcome of attempt number `i` given by `outcomes i`); a handled exception
backs off and retries, an unhandled one propagates, and exhaustion raises
the `RuntimeError`. -/
def safe_loop (outcomes : Nat → BackendOutcome) : Nat → Nat → Except PyExc String
  | _, 0 => .error (.runtime retry_fail_msg)
  | i, fuel + 1 =>
    match attempt_call (outcomes i) with
    | .ok text => .ok text
    | .error e => if handled_exc e then safe_loop outcomes (i + 1) fuel else .error e

/-- `_safe_chat_completion` with `max_retries` attempts (source default 2):
the value is the returned string, or the exception that escapes the function. -/
def safe_chat_completion (outcomes : Nat → BackendOutcome) (max_retries : Nat := 2) :
    Except PyExc String :=
  safe_loop outcomes 1 max_retries

/-! ## Helper lemmas about association lists -/

lemma alistGetD_nil (k : String) : alistGetD [] k = [] := rfl

lemma alistGetD_setdefaultAppend_self (m : List (String × List String)) (k x : String) :
    alistGetD (setdefaultAppend m k x) k = alistGetD m k ++ [x] := by
  induction m with
  | nil => simp [setdefaultAppend, alistGetD, alistGet]
  | cons p t ih =>
    by_cases h : p.1 == k
    · simp [setdefaultAppend, alistGetD, alistGet, h]
    · simpa [setdefaultAppend, alistGetD, alistGet, h] using ih

lemma alistGetD_setdefaultAppend_ne (m : List (String × List String)) (k k' x : String)
    (hne : k' ≠ k) :
    alistGetD (setdefaultAppend m k x) k' = alistGetD m k' := by
  induction m with
  | nil =>
    have hkk : (k == k') = false := by
      simp only [beq_eq_false_iff_ne, ne_eq]
      exact fun hc => hne hc.symm
    simp [setdefaultAppend, alistGetD, alistGet, hkk]
  | cons p t ih =>
    by_cases h : p.1 == k
    · have hk : p.1 = k := by simpa using h
      have h' : (p.1 == k') = false := by
        simp only [beq_eq_false_iff_ne, ne_eq, hk]
        exact fun hc => hne hc.symm
      simp [setdefaultAppend, alistGetD, alistGet, h, h']
    · by_cases h2 : p.1 == k'
      · simp [setdefaultAppend, alistGetD, alistGet, h, h2]
      · simpa [setdefaultAppend, alistGetD, alistGet, h, h2] using ih

lemma alistGetD_map_nil (l : List String) (k : String) :
    alistGetD (l.map (fun cat => (cat, ([] : List String)))) k = [] := by
  induction l with
  | nil => rfl
  | cons c t ih =>
    by_cases h : c == k
    · simp [alistGetD, alistGet, h]
    · simpa [alistGetD, alistGet, h] using ih

lemma alistGetD_if_empty (m : List (String × List String)) (l : List String) (k : String)
    (h : m.isEmpty = true) :
    alistGetD (l.map (fun cat => (cat, ([] : List String)))) k = alistGetD m k := by
  rw [List.isEmpty_iff] at h
  subst h
  rw [alistGetD_map_nil, alistGetD_nil]

/-! ## Helper lemmas about `listMin` and `firstMatch` -/

lemma foldl_min_le_init (xs : List Nat) (a : Nat) : xs.foldl Nat.min a ≤ a := by
  induction xs generalizing a with
  | nil => simp
  | cons x t ih =>
    simp only [List.foldl_cons]
    exact le_trans (ih (Nat.min a x)) (Nat.min_le_left a x)

lemma foldl_min_le_mem (xs : List Nat) (a x : Nat) (hx : x ∈ xs) :
    xs.foldl Nat.min a ≤ x := by
  induction xs generalizing a with
  | nil => cases hx
  | cons y t ih =>
    simp only [List.foldl_cons]
    rcases List.mem_cons.mp hx with h | h
    · subst h
      exact le_trans (foldl_min_le_init t _) (Nat.min_le_right a x)
    · exact ih (Nat.min a y) h

lemma foldl_min_mem (xs : List Nat) (a : Nat) :
    xs.foldl Nat.min a = a ∨ xs.foldl Nat.min a ∈ xs := by
  induction xs generalizing a with
  | nil => exact Or.inl rfl
  | cons x t ih =>
    simp only [List.foldl_cons]
    rcases ih (Nat.min a x) with h | h
    · rcases le_total a x with hax | hax
      · exact Or.inl (by rw [h]; exact Nat.min_eq_left hax)
      · exact Or.inr (List.mem_cons.mpr (Or.inl (by rw [h]; exact Nat.min_eq_right hax)))
    · exact Or.inr (List.mem_cons.mpr (Or.inr h))

lemma listMin_mem (l : List Nat) (h : l ≠ []) : listMin l ∈ l := by
  cases l with
  | nil => exact absurd rfl h
  | cons x t =>
    rcases foldl_min_mem t x with h1 | h1
    · rw [listMin, h1]; exact List.mem_cons_self x t
    · exact List.mem_cons.mpr (Or.inr h1)

lemma listMin_le (l : List Nat) (x : Nat) (hx : x ∈ l) : listMin l ≤ x := by
  cases l with
  | nil => cases hx
  | cons y t =>
    rcases List.mem_cons.mp hx with h | h
    · subst h
      exact foldl_min_le_init t x
    · exact foldl_min_le_mem t y x h

lemma firstMatch_some_spec (p : Nat → Bool) (fuel i j : Nat)
    (h : firstMatch p i fuel = some j) :
    i ≤ j ∧ j < i + fuel ∧ p j = true ∧ ∀ m, i ≤ m → m < j → p m = false := by
  induction fuel generalizing i with
  | zero => simp [firstMatch] at h
  | succ fuel ih =>
    rw [firstMatch] at h
    by_cases hp : p i
    · rw [if_pos hp] at h
      cases h
      exact ⟨le_refl _, by omega, hp, fun m h1 h2 => absurd h1 (by omega)⟩
    · rw [if_neg hp] at h
      obtain ⟨h1, h2, h3, h4⟩ := ih (i + 1) h
      refine ⟨by omega, by omega, h3, fun m hm1 hm2 => ?_⟩
      by_cases hmi : m = i
      · subst hmi
        exact Bool.eq_false_iff.mpr hp
      · exact h4 m (by omega) hm2

lemma firstMatch_isSome (p : Nat → Bool) (fuel i j : Nat)
    (h1 : i ≤ j) (h2 : j < i + fuel) (h3 : p j = true) :
    (firstMatch p i fuel).isSome := by
  induction fuel generalizing i with
  | zero => omega
  | succ fuel ih =>
    rw [firstMatch]
    by_cases hp : p i
    · simp [hp]
    · rw [if_neg hp]
      have hij : i ≠ j := fun hc => hp (hc ▸ h3)
      exact ih (i + 1) (by omega) (by omega)

/-! ## Modular arithmetic helper -/

lemma exists_offset_mod (n start j : Nat) (hn : 0 < n) (hj : j < n) :
    ∃ off, off < n ∧ (start + off) % n = j := by
  refine ⟨(j + (n - start % n)) % n, Nat.mod_lt _ hn, ?_⟩
  have ha : start % n < n := Nat.mod_lt _ hn
  have hb : start % n ≤ start := Nat.mod_le start n
  have h1 : (start + (j + (n - start % n)) % n) % n
      = (start + (j + (n - start % n))) % n := by
    conv_lhs => rw [Nat.add_mod]
    rw [Nat.mod_mod_of_dvd _ dvd_rfl, ← Nat.add_mod]
  rw [h1]
  have hdm : n * (start / n) + start % n = start := Nat.div_add_mod start n
  have h2 : start + (j + (n - start % n)) = n * (start / n + 1) + j := by
    have hmul : n * (start / n + 1) = n * (start / n) + n := by ring
    omega
  rw [h2, Nat.mul_add_mod, Nat.mod_eq_of_lt hj]

/-- `List.getD` agrees with indexed access inside the bounds. -/
lemma getD_eq_getElem {α : Type} (l : List α) (d : α) (i : Nat) (h : i < l.length) :
    l.getD i d = l[i] := by
  simp [List.getD_eq_getElem?_getD, List.getElem?_eq_getElem h]

/-! ## Projection lemmas for `add_message` -/

@[simp] lemma add_message_messages (s : SessionState) (r c : String) :
    (add_message s r c).messages = s.messages ++ [(r, c)] := rfl

@[simp] lemma add_message_state (s : SessionState) (r c : String) :
    (add_message s r c).state = s.state := rfl

@[simp] lemma add_message_total (s : SessionState) (r c : String) :
    (add_message s r c).total_questions_asked = s.total_questions_asked := rfl

@[simp] lemma add_message_asked (s : SessionState) (r c : String) :
    (add_message s r c).asked_questions_by_category = s.asked_questions_by_category := rfl

@[simp] lemma add_message_answers (s : SessionState) (r c : String) :
    (add_message s r c).answers = s.answers := rfl

@[simp] lemma add_message_order (s : SessionState) (r c : String) :
    (add_message s r c).category_order = s.category_order := rfl

@[simp] lemma add_message_cat_index (s : SessionState) (r c : String) :
    (add_message s r c).current_category_index = s.current_category_index := rfl

@[simp] lemma add_message_followup (s : SessionState) (r c : String) :
    (add_message s r c).awaiting_followup = s.awaiting_followup := rfl

@[simp] lemma add_message_last (s : SessionState) (r c : String) :
    (add_message s r c).last_category_answered = s.last_category_answered := rfl

@[simp] lemma add_message_data (s : SessionState) (r c : String) :
    (add_message s r c).candidate_data = s.candidate_data := rfl

@[simp] lemma add_message_field_index (s : SessionState) (r c : String) :
    (add_message s r c).current_field_index = s.current_field_index := rfl

@[simp] lemma add_message_consent (s : SessionState) (r c : String) :
    (add_message s r c).consent_status = s.consent_status := rfl

@[simp] lemma add_message_store (s : SessionState) (r c : String) :
    (add_message s r c).store = s.store := rfl

@[simp] lemma add_message_skills (s : SessionState) (r c : String) :
    (add_message s r c).skill_categories = s.skill_categories := rfl

/-! ## Nonemptiness of the computed category order -/

lemma foldl_extend_ne_nil (l acc : List String) (h : acc ≠ [] ∨ l ≠ []) :
    l.foldl (fun acc c => if acc.contains c then acc else acc ++ [c]) acc ≠ [] := by
  induction l generalizing acc with
  | nil =>
    rcases h with h | h
    · exact h
    · exact absurd rfl h
  | cons c t ih =>
    simp only [List.foldl_cons]
    apply ih
    left
    by_cases hc : acc.contains c
    · rw [if_pos hc]
      rcases h with h | _
      · exact h
      · intro hnil
        subst hnil
        simp at hc
    · rw [if_neg hc]
      simp

lemma compute_category_order_ne_nil (cats : List (String × List String)) (h : cats ≠ []) :
    compute_category_order cats ≠ [] := by
  unfold compute_category_order
  apply foldl_extend_ne_nil
  right
  simpa using h

/-! ## Claim theorems -/

/-- Claim C4: for every sequence of backend outcomes and every retry budget,
the gateway's central call either returns a string or raises its own
documented `RuntimeError`; no backend exception (`RateLimitError`,
`APITimeoutError`, `APIError`) escapes `_safe_chat_completion`. -/
theorem c4_gateway_no_unhandled_exception (outcomes : Nat → BackendOutcome)
    (max_retries : Nat) :
    (∃ text, safe_chat_completion outcomes max_retries = .ok text) ∨
    safe_chat_completion outcomes max_retries = .error (.runtime retry_fail_msg) := by
  unfold safe_chat_completion
  generalize 1 = i
  induction max_retries generalizing i with
  | zero => exact Or.inr rfl
  | succ fuel ih =>
    rw [safe_loop]
    cases h : outcomes i with
    | ok t => exact Or.inl ⟨pyStrip t, by simp [attempt_call]⟩
    | rateLimit => simpa [attempt_call, handled_exc] using ih (i + 1)
    | apiTimeout => simpa [attempt_call, handled_exc] using ih (i + 1)
    | apiError => simpa [attempt_call, handled_exc] using ih (i + 1)

/-- Claim C5 counterexample: `categorize_skills` applied to the empty skill
list yields the empty mapping, not a single "Other" category holding a
placeholder entry. -/
theorem c5_counterexample :
    categorize_skills [] = [] ∧
    categorize_skills [] ≠ [("Other", ["(no technologies provided)"])] := by
  have h0 : categorize_skills [] = [] := rfl
  refine ⟨h0, ?_⟩
  rw [h0]
  simp

/-- The screening-preparation step never hands the scheduler an empty
category order. -/
lemma prepare_order_ne_nil (s : SessionState) :
    (prepare_screening_after_consent s).category_order ≠ [] := by
  dsimp only [prepare_screening_after_consent]
  apply compute_category_order_ne_nil
  split
  · split
    · simp
    · rename_i h2
      simpa [List.isEmpty_iff] using h2
  · rename_i h1
    simpa [List.isEmpty_iff] using h1

/-- Claim C5 (amended): the classifier returns an empty mapping on empty
input; it is `prepare_screening_after_consent` that substitutes the single
"Other" category with the placeholder entry, so the scheduler always starts
screening with a nonempty category order. -/
theorem c5_placeholder_amended (s : SessionState)
    (hcat : s.skill_categories = [])
    (htech : parse_tech_stack (dictGetD s.candidate_data "tech_stack") = []) :
    (prepare_screening_after_consent s).skill_categories
      = [("Other", ["(no technologies provided)"])] ∧
    (prepare_screening_after_consent s).category_order = ["Other"] ∧
    ∀ s' : SessionState, (prepare_screening_after_consent s').category_order ≠ [] := by
  refine ⟨?_, ?_, fun s' => prepare_order_ne_nil s'⟩
  · simp [prepare_screening_after_consent, hcat, htech, categorize_skills]
  · simp [prepare_screening_after_consent, hcat, htech, categorize_skills]
    rfl

/-- Claim C5 (amended) witness: a state whose tech-stack field parses to no
technologies indeed reaches screening with the placeholder category. -/
theorem c5_placeholder_amended_witness :
    init_session_state.skill_categories = [] ∧
    parse_tech_stack (dictGetD init_session_state.candidate_data "tech_stack") = [] ∧
    (prepare_screening_after_consent init_session_state).skill_categories
      = [("Other", ["(no technologies provided)"])] :=
  ⟨rfl, by decide, (c5_placeholder_amended init_session_state rfl (by decide)).1⟩

/-- Rounding half to even keeps an exact value bounded by `40` below `40`. -/
lemma roundHalfEven_le40 (num den : Nat) (hden : 0 < den) (hle : num ≤ 40 * den) :
    roundHalfEven num den ≤ 40 := by
  unfold roundHalfEven
  have key := Nat.div_add_mod num den
  have hb : num % den < den := Nat.mod_lt _ hden
  have ha : num / den ≤ 40 := by
    by_contra hcon
    push_neg at hcon
    have h41 : 41 * den ≤ num / den * den := Nat.mul_le_mul_right den (by omega)
    have hdm : num / den * den ≤ num := Nat.div_mul_le_self num den
    omega
  set a := num / den with hadef
  set b := num % den with hbdef
  split_ifs with h1 h2 h3
  · exact ha
  · by_cases hq : a = 40
    · rw [hq] at key
      omega
    · omega
  · exact ha
  · by_cases hq : a = 40
    · rw [hq] at key
      omega
    · omega

/-- Claim C6 counterexample: on input `"2.5 years"` the parser returns `2`,
not `3` — Python `round` rounds halves to even. -/
theorem c6_counterexample :
    parse_years_experience "2.5 years" = some 2 ∧
    parse_years_experience "2.5 years" ≠ some 3 := by
  constructor
  · decide
  · decide

/-- Claim C6 (amended): `"2.5 years"` parses to `2` (round half to even), and
the seniority label for `2` is `"Mid-level"`; in general the parser extracts
the first number, clamps it to `[0, 40]` (nonnegative by construction), and
rounds half to even, so every parsed value is at most `40`. -/
theorem c6_rounding_amended :
    parse_years_experience "2.5 years" = some 2 ∧
    derive_seniority_label 2 = "Mid-level" ∧
    ∀ (raw : String) (y : Nat), parse_years_experience raw = some y → y ≤ 40 := by
  refine ⟨by decide, by decide, ?_⟩
  intro raw y h
  unfold parse_years_experience at h
  rcases hfn : firstNumber (pyLower (strip_label raw)).toList with _ | ⟨ds, fs⟩
  · rw [hfn] at h
    cases h
  · rw [hfn] at h
    simp only [Option.some.injEq] at h
    subst h
    apply roundHalfEven_le40
    · positivity
    · exact min_le_right _ _

/-- Claim C6 (amended) witness: the general bound instantiated at the
concrete scenario input. -/
theorem c6_rounding_amended_witness :
    parse_years_experience "2.5 years" = some 2 ∧ 2 ≤ 40 :=
  ⟨c6_rounding_amended.1,
   c6_rounding_amended.2.2 "2.5 years" 2 c6_rounding_amended.1⟩

/-- `completion_message` only reads the candidate data, so appending a
transcript message does not change it. -/
@[simp] lemma completion_message_add_message (s : SessionState) (r c : String) (b : Bool) :
    completion_message (add_message s r c) b = completion_message s b := rfl

/-- `ask_next_screening_question` never touches consent, persistence, profile
data, recorded answers, the category order, or the classified skills. -/
lemma ask_next_preserves (gw : Option String) (s : SessionState) :
    (ask_next_screening_question gw s).consent_status = s.consent_status ∧
    (ask_next_screening_question gw s).store = s.store ∧
    (ask_next_screening_question gw s).candidate_data = s.candidate_data ∧
    (ask_next_screening_question gw s).answers = s.answers ∧
    (ask_next_screening_question gw s).category_order = s.category_order ∧
    (ask_next_screening_question gw s).skill_categories = s.skill_categories := by
  cases gw <;>
    · unfold ask_next_screening_question
      dsimp only
      split_ifs <;> exact ⟨rfl, rfl, rfl, rfl, rfl, rfl⟩

/-- `prepare_screening_after_consent` never touches consent or persistence. -/
lemma prepare_preserves (s : SessionState) :
    (prepare_screening_after_consent s).consent_status = s.consent_status ∧
    (prepare_screening_after_consent s).store = s.store := by
  dsimp only [prepare_screening_after_consent]
  split_ifs <;> exact ⟨rfl, rfl⟩

/-- Claim C1: whenever the scheduler is invoked with
`totalQuestionsAsked >= MAX_TOTAL_QUESTIONS`, it emits the max-reached
completion message and moves to `ended` without asking (neither the counter
nor any category history changes); and the counter only ever increases on an
invocation that started strictly below the cap. -/
theorem c1_hard_cap (gw : Option String) (s : SessionState) :
    (s.total_questions_asked ≥ MAX_TOTAL_QUESTIONS →
      (ask_next_screening_question gw s).state = Phase.ended ∧
      (ask_next_screening_question gw s).messages
        = s.messages ++ [("assistant", completion_message s true)] ∧
      (ask_next_screening_question gw s).total_questions_asked
        = s.total_questions_asked ∧
      (ask_next_screening_question gw s).asked_questions_by_category
        = s.asked_questions_by_category) ∧
    ((ask_next_screening_question gw s).total_questions_asked
        ≠ s.total_questions_asked →
      s.total_questions_asked < MAX_TOTAL_QUESTIONS) := by
  have hcap : s.total_questions_asked ≥ MAX_TOTAL_QUESTIONS →
      ask_next_screening_question gw s
        = { (add_message s "assistant" (completion_message s true)) with
            state := .ended } := by
    intro h
    unfold ask_next_screening_question
    rw [if_pos h]
  constructor
  · intro h
    rw [hcap h]
    exact ⟨rfl, rfl, rfl, rfl⟩
  · intro hne
    by_contra hlt
    push_neg at hlt
    refine hne ?_
    rw [hcap hlt]
    rfl

/-- State at the question cap, used to witness claim C1. -/
def c1_state : SessionState :=
  { init_session_state with total_questions_asked := 15 }

/-- Claim C1 witness: at the cap, the scheduler ends the session and leaves
the counter unchanged. -/
theorem c1_hard_cap_witness :
    c1_state.total_questions_asked ≥ MAX_TOTAL_QUESTIONS ∧
    (ask_next_screening_question none c1_state).state = Phase.ended ∧
    (ask_next_screening_question none c1_state).total_questions_asked
      = c1_state.total_questions_asked :=
  ⟨by decide, ((c1_hard_cap none c1_state).1 (by decide)).1,
   ((c1_hard_cap none c1_state).1 (by decide)).2.2.1⟩

/-- Claim C10 counterexample: `"maybe"` does not contain `"bye"` (nor any
other exit keyword), so the claimed example input does not end the session
— the turn is handled as ordinary field input instead. -/
theorem c10_counterexample :
    strContains (pyStrip (pyLower "maybe")) "bye" = false ∧
    check_exit_keyword "maybe" = false ∧
    (process_turn none none none init_session_state "maybe").state
      = Phase.collecting_info := by
  refine ⟨by decide, by decide, by decide⟩

/-- Claim C10 (amended): the exit check uses substring containment against
the fixed keyword set on every turn before any phase handling, so every
input whose lowercase stripped form contains an exit keyword — also inside a
longer word, e.g. `"stopped"` contains `"stop"` (`"maybe"`, however, does not
contain `"bye"`) — immediately emits the completion message and sets the
phase to `ended`, and no answer is recorded. -/
theorem c10_exit_amended (gwQ gwRole gwSkill : Option String) (s : SessionState)
    (input : String) (hkw : check_exit_keyword input = true) :
    (process_turn gwQ gwRole gwSkill s input).state = Phase.ended ∧
    (process_turn gwQ gwRole gwSkill s input).messages
      = s.messages ++ [("user", input), ("assistant", completion_message s false)] ∧
    (process_turn gwQ gwRole gwSkill s input).answers = s.answers := by
  refine ⟨?_, ?_, ?_⟩ <;> simp [process_turn, hkw, List.append_assoc]

/-- Claim C10 (amended) witness: `"stopped"` contains `"stop"` and ends a
fresh session without recording an answer. -/
theorem c10_exit_amended_witness :
    check_exit_keyword "stopped" = true ∧
    (process_turn none none none init_session_state "stopped").state = Phase.ended ∧
    (process_turn none none none init_session_state "stopped").answers
      = init_session_state.answers :=
  ⟨by decide,
   (c10_exit_amended none none none init_session_state "stopped" (by decide)).1,
   (c10_exit_amended none none none init_session_state "stopped" (by decide)).2.2⟩

/-- Claim C9: consent classification tests the affirmative keyword set first,
by substring containment, and that set contains the single letter `"y"`; so
any consent-phase input whose lowercase form contains a `"y"` anywhere is
classified affirmative, sets consent to granted, and appends the profile to
the persistent store. -/
theorem c9_consent_substring_y (gwQ gwRole gwSkill : Option String)
    (s : SessionState) (input : String)
    (hstate : s.state = Phase.awaiting_consent)
    (hkw : check_exit_keyword input = false)
    (hy : strContains (pyLower (pyStrip input)) "y" = true) :
    (process_turn gwQ gwRole gwSkill s input).consent_status = "granted" ∧
    (process_turn gwQ gwRole gwSkill s input).store
      = s.store ++ [⟨s.candidate_data, s.role_summary, s.skill_summary,
                     s.seniority_label, s.skill_categories⟩] := by
  have hyes : (yes_keywords.any
      (fun k => strContains (pyLower (pyStrip input)) k)) = true := by
    rw [List.any_eq_true]
    exact ⟨"y", by simp [yes_keywords], hy⟩
  have hbody : process_turn gwQ gwRole gwSkill s input
      = consent_turn gwQ (add_message s "user" input) input := by
    simp [process_turn, hkw, hstate]
  rw [hbody]
  unfold consent_turn
  rw [if_pos hyes]
  constructor
  · rw [(ask_next_preserves _ _).1, (prepare_preserves _).1]
    rfl
  · rw [(ask_next_preserves _ _).2.1, (prepare_preserves _).2]
    rfl

/-- Consent-phase state used to witness claim C9. -/
def c9_state : SessionState :=
  { init_session_state with state := .awaiting_consent }

/-- Claim C9 witness: the refusal `"definitely not"` contains a `"y"`, so it
is classified affirmative, consent is recorded as granted, and the profile is
persisted. -/
theorem c9_consent_substring_y_witness :
    strContains (pyLower (pyStrip "definitely not")) "y" = true ∧
    (process_turn (some "Q1") none none c9_state "definitely not").consent_status
      = "granted" ∧
    (process_turn (some "Q1") none none c9_state "definitely not").store
      = c9_state.store ++ [⟨c9_state.candidate_data, c9_state.role_summary,
          c9_state.skill_summary, c9_state.seniority_label,
          c9_state.skill_categories⟩] :=
  ⟨by decide,
   (c9_consent_substring_y (some "Q1") none none c9_state "definitely not"
      rfl (by decide) (by decide)).1,
   (c9_consent_substring_y (some "Q1") none none c9_state "definitely not"
      rfl (by decide) (by decide)).2⟩

/-- Claim C8: an invalid email answer leaves the field cursor and the stored
candidate data unchanged and emits only the corrective prompt, so the same
field is asked again on the next turn. -/
theorem c8_invalid_email_frame (gwQ gwRole gwSkill : Option String)
    (s : SessionState) (input : String)
    (hstate : s.state = Phase.collecting_info)
    (hfield : REQUIRED_FIELDS.getD s.current_field_index "" = "email")
    (hkw : check_exit_keyword input = false)
    (hbad : is_valid_email (pyStrip input) = false) :
    (process_turn gwQ gwRole gwSkill s input).current_field_index
      = s.current_field_index ∧
    (process_turn gwQ gwRole gwSkill s input).candidate_data = s.candidate_data ∧
    (process_turn gwQ gwRole gwSkill s input).messages
      = s.messages ++ [("user", input),
          ("assistant",
            "That doesn’t look like a valid email. " ++
            "Please enter something like `name@example.com`.")] := by
  have hbody : process_turn gwQ gwRole gwSkill s input
      = collecting_turn gwRole gwSkill (add_message s "user" input) input := by
    simp [process_turn, hkw, hstate]
  rw [hbody]
  unfold collecting_turn
  simp only [add_message_field_index, hfield]
  norm_num
  refine ⟨?_, ?_, ?_⟩ <;> simp [hbad, List.append_assoc]

/-- Collecting-phase state with the cursor on the email field, used to
witness claim C8. -/
def c8_state : SessionState :=
  { init_session_state with current_field_index := 1 }

/-- Claim C8 witness: the scenario input `"not-an-email"` is rejected with
the cursor and candidate data unchanged. -/
theorem c8_invalid_email_frame_witness :
    is_valid_email (pyStrip "not-an-email") = false ∧
    (process_turn none none none c8_state "not-an-email").current_field_index
      = c8_state.current_field_index ∧
    (process_turn none none none c8_state "not-an-email").candidate_data
      = c8_state.candidate_data :=
  ⟨by decide,
   (c8_invalid_email_frame none none none c8_state "not-an-email"
      rfl (by decide) (by decide) (by decide)).1,
   (c8_invalid_email_frame none none none c8_state "not-an-email"
      rfl (by decide) (by decide) (by decide)).2.1⟩

/-- A post-consent screening state whose single category is "Other", used to
evaluate claim C7's failing execution. -/
def c7_prepared : SessionState :=
  prepare_screening_after_consent
    { init_session_state with
      state := .screening
      skill_categories := [("Other", ["Excel"])] }

/-- The state after the first question-generation call raises (the gateway's
post-retry `RuntimeError` is not caught at this call site, so the turn aborts
with no question recorded). -/
def c7_after_failed_call : SessionState :=
  ask_next_screening_question none c7_prepared

/-- The state after the candidate sends one more message: the screening
handler records it as an answer although no question was ever asked. -/
def c7_final : SessionState :=
  process_turn none none none c7_after_failed_call "Pivot tables mostly"

/-- Claim C7 (code-bug evaluation): after a failed question-generation call,
the next user turn is recorded as an answer in "Other" while the asked-
question history for "Other" is still empty, violating
`len(answers[c]) <= len(askedQuestionsByCategory[c])`. -/
theorem c7_answers_exceed_questions :
    (alistGetD c7_final.answers "Other").length = 1 ∧
    (alistGetD c7_final.asked_questions_by_category "Other").length = 0 ∧
    ¬((alistGetD c7_final.answers "Other").length
        ≤ (alistGetD c7_final.asked_questions_by_category "Other").length) := by
  refine ⟨by decide, by decide, by decide⟩

/-! ## Claim C2: guaranteed same-category follow-up -/

@[simp] lemma maybe_acknowledge_answers (s : SessionState) :
    (maybe_acknowledge s).answers = s.answers := by
  unfold maybe_acknowledge
  split_ifs <;> rfl

@[simp] lemma maybe_acknowledge_asked (s : SessionState) :
    (maybe_acknowledge s).asked_questions_by_category
      = s.asked_questions_by_category := by
  unfold maybe_acknowledge
  split_ifs <;> rfl

@[simp] lemma maybe_acknowledge_followup (s : SessionState) :
    (maybe_acknowledge s).awaiting_followup = s.awaiting_followup := by
  unfold maybe_acknowledge
  split_ifs <;> rfl

@[simp] lemma maybe_acknowledge_last (s : SessionState) :
    (maybe_acknowledge s).last_category_answered = s.last_category_answered := by
  unfold maybe_acknowledge
  split_ifs <;> rfl

@[simp] lemma maybe_acknowledge_total (s : SessionState) :
    (maybe_acknowledge s).total_questions_asked = s.total_questions_asked := by
  unfold maybe_acknowledge
  split_ifs <;> rfl

@[simp] lemma maybe_acknowledge_order (s : SessionState) :
    (maybe_acknowledge s).category_order = s.category_order := by
  unfold maybe_acknowledge
  split_ifs <;> rfl

/-- Counts computed over the (possibly re-initialized) asked-question dict
agree with counts over the state's own dict. -/
lemma alistGetD_asked0_eq (s : SessionState) (x : String) :
    alistGetD
      (if s.asked_questions_by_category.isEmpty then
        s.category_order.map (fun cat => (cat, ([] : List String)))
      else s.asked_questions_by_category) x
      = alistGetD s.asked_questions_by_category x := by
  by_cases h : s.asked_questions_by_category.isEmpty
  · rw [if_pos h]
    exact alistGetD_if_empty _ _ _ h
  · rw [if_neg h]

/-- Behaviour of the scheduler in follow-up mode with a successful generation
call: the question lands in the remembered category, the flag is cleared, and
no other category's history or any answer changes. -/
lemma ask_next_followup_spec (q : String) (s : SessionState) (c : String)
    (hcap : s.total_questions_asked < MAX_TOTAL_QUESTIONS)
    (hord : s.category_order.isEmpty = false)
    (hfu : s.awaiting_followup = true)
    (hlast : s.last_category_answered = some c)
    (hc : c.isEmpty = false) :
    alistGetD (ask_next_screening_question (some q) s).asked_questions_by_category c
      = alistGetD s.asked_questions_by_category c ++ [q] ∧
    (∀ c', c' ≠ c →
      alistGetD (ask_next_screening_question (some q) s).asked_questions_by_category c'
        = alistGetD s.asked_questions_by_category c') ∧
    (ask_next_screening_question (some q) s).awaiting_followup = false ∧
    (ask_next_screening_question (some q) s).answers = s.answers := by
  have hnotcap : ¬ (s.total_questions_asked ≥ MAX_TOTAL_QUESTIONS) := not_le.mpr hcap
  have hord' : ¬ (s.category_order.isEmpty = true) := by simp [hord]
  unfold ask_next_screening_question
  rw [if_neg hnotcap, if_neg hord']
  dsimp only
  simp only [hfu, hlast, truthyLast, hc, Bool.not_false, Bool.true_and, if_true,
    Option.getD_some]
  refine ⟨?_, ?_, rfl, rfl⟩
  · rw [add_message_asked]
    dsimp only
    rw [alistGetD_setdefaultAppend_self, alistGetD_asked0_eq]
  · intro c' hne
    rw [add_message_asked]
    dsimp only
    rw [alistGetD_setdefaultAppend_ne _ _ _ _ hne, alistGetD_asked0_eq]

/-- Claim C2: a screening answer arms the follow-up flag for its category,
and the immediately following scheduling call (when the cap has not been hit
and a question is generated) asks in exactly that category, clearing the
flag, with all other categories' histories untouched. -/
theorem c2_followup_same_category (q : String) (gwRole gwSkill : Option String)
    (s : SessionState) (input c : String)
    (hstate : s.state = Phase.screening)
    (hkw : check_exit_keyword input = false)
    (hcat : get_current_category s = some c)
    (hc : c.isEmpty = false)
    (hcap : s.total_questions_asked < MAX_TOTAL_QUESTIONS) :
    alistGetD (process_turn (some q) gwRole gwSkill s input).asked_questions_by_category c
      = alistGetD s.asked_questions_by_category c ++ [q] ∧
    (∀ c', c' ≠ c →
      alistGetD (process_turn (some q) gwRole gwSkill s input).asked_questions_by_category c'
        = alistGetD s.asked_questions_by_category c') ∧
    alistGetD (process_turn (some q) gwRole gwSkill s input).answers c
      = alistGetD s.answers c ++ [pyStrip input] ∧
    (process_turn (some q) gwRole gwSkill s input).awaiting_followup = false := by
  have horder : s.category_order.isEmpty = false := by
    unfold get_current_category at hcat
    by_cases h : s.category_order.isEmpty
    · rw [if_pos h] at hcat
      cases hcat
    · simpa using h
  have hbody : process_turn (some q) gwRole gwSkill s input
      = screening_turn (some q) (add_message s "user" input) input := by
    simp [process_turn, hkw, hstate]
  have hcat' : get_current_category (add_message s "user" input) = some c := hcat
  rw [hbody]
  unfold screening_turn
  rw [hcat']
  set sMid := maybe_acknowledge
    { add_message s "user" input with
      answers := setdefaultAppend (add_message s "user" input).answers c (pyStrip input)
      awaiting_followup := true
      last_category_answered := some c
      category_question_index := (add_message s "user" input).category_question_index + 1 }
    with hsMid
  obtain ⟨ha1, ha2, ha3, ha4⟩ := ask_next_followup_spec q sMid c
    (by rw [hsMid, maybe_acknowledge_total]; exact hcap)
    (by rw [hsMid, maybe_acknowledge_order]; exact horder)
    (by rw [hsMid, maybe_acknowledge_followup])
    (by rw [hsMid, maybe_acknowledge_last])
    hc
  have hmidasked : sMid.asked_questions_by_category = s.asked_questions_by_category := by
    rw [hsMid, maybe_acknowledge_asked]
    rfl
  have hmidans : sMid.answers = setdefaultAppend s.answers c (pyStrip input) := by
    rw [hsMid, maybe_acknowledge_answers]
    rfl
  refine ⟨?_, ?_, ?_, ha3⟩
  · rw [ha1, hmidasked]
  · intro c' hne
    rw [ha2 c' hne, hmidasked]
  · rw [ha4, hmidans, alistGetD_setdefaultAppend_self]

/-- Screening state used to witness claim C2. -/
def c2_state : SessionState :=
  { init_session_state with
    state := .screening
    skill_categories := [("Backend", ["Python"]), ("Other", ["Excel"])]
    category_order := ["Backend", "Other"]
    asked_questions_by_category := [("Backend", ["Q1"]), ("Other", [])]
    answers := [("Backend", []), ("Other", [])]
    total_questions_asked := 1 }

/-- Claim C2 witness: answering the pending "Backend" question makes the next
generated question land in "Backend" again, leaving "Other" untouched. -/
theorem c2_followup_same_category_witness :
    get_current_category c2_state = some "Backend" ∧
    alistGetD (process_turn (some "Q2") none none c2_state
        "I use Python daily").asked_questions_by_category "Backend"
      = alistGetD c2_state.asked_questions_by_category "Backend" ++ ["Q2"] ∧
    alistGetD (process_turn (some "Q2") none none c2_state
        "I use Python daily").answers "Backend"
      = alistGetD c2_state.answers "Backend" ++ [pyStrip "I use Python daily"] :=
  ⟨by decide,
   (c2_followup_same_category "Q2" none none c2_state "I use Python daily" "Backend"
      rfl (by decide) (by decide) (by decide) (by decide)).1,
   (c2_followup_same_category "Q2" none none c2_state "I use Python daily" "Backend"
      rfl (by decide) (by decide) (by decide) (by decide)).2.2.1⟩

/-! ## Claim C3: load-balanced category selection -/

/-- Specification wording of the load-balancing rule: `i` is the first
position, scanning forward circularly through `CategoryOrder` from the
current category pointer, whose asked-question count equals the minimum count
over all categories. -/
def first_min_from_pointer (s : SessionState) (i : Nat) : Prop :=
  ∃ off, off < s.category_order.length ∧
    i = (s.current_category_index + off) % s.category_order.length ∧
    (alistGetD s.asked_questions_by_category (s.category_order.getD i "")).length
      = listMin (s.category_order.map
          (fun cat => (alistGetD s.asked_questions_by_category cat).length)) ∧
    ∀ off', off' < off →
      (alistGetD s.asked_questions_by_category
          (s.category_order.getD
            ((s.current_category_index + off') % s.category_order.length) "")).length
        ≠ listMin (s.category_order.map
            (fun cat => (alistGetD s.asked_questions_by_category cat).length))

/-- Claim C3: when no follow-up is pending, the scheduler picks the first
category, scanning forward circularly from `current_category_index`, whose
count equals the minimum count over all categories; it stores that position
in `current_category_index` and asks the generated question in exactly that
category. -/
theorem c3_load_balanced_selection (q : String) (s : SessionState)
    (hcap : s.total_questions_asked < MAX_TOTAL_QUESTIONS)
    (hord : s.category_order.isEmpty = false)
    (hnf : s.awaiting_followup = false) :
    first_min_from_pointer s
      ((ask_next_screening_question (some q) s).current_category_index) ∧
    alistGetD (ask_next_screening_question (some q) s).asked_questions_by_category
        (s.category_order.getD
          ((ask_next_screening_question (some q) s).current_category_index) "")
      = alistGetD s.asked_questions_by_category
          (s.category_order.getD
            ((ask_next_screening_question (some q) s).current_category_index) "")
          ++ [q] := by
  have hnotcap : ¬ (s.total_questions_asked ≥ MAX_TOTAL_QUESTIONS) := not_le.mpr hcap
  have hord' : ¬ (s.category_order.isEmpty = true) := by simp [hord]
  have hne : s.category_order ≠ [] := by simpa [List.isEmpty_iff] using hord
  have hnpos : 0 < s.category_order.length := List.length_pos.mpr hne
  -- the minimum count is attained at some position j
  have hminmem : listMin (s.category_order.map
        (fun cat => (alistGetD s.asked_questions_by_category cat).length))
      ∈ s.category_order.map
        (fun cat => (alistGetD s.asked_questions_by_category cat).length) :=
    listMin_mem _ (by simpa using hne)
  obtain ⟨cm, hcmmem, hcmcnt⟩ := List.mem_map.mp hminmem
  obtain ⟨j, hj, hjval⟩ := List.getElem_of_mem hcmmem
  have hjD : s.category_order.getD j "" = cm := by
    rw [getD_eq_getElem _ _ _ hj, hjval]
  obtain ⟨offA, hoffAlt, hoffAeq⟩ :=
    exists_offset_mod s.category_order.length s.current_category_index j hnpos hj
  -- the Python loop's predicate, with counts over the state's own dict
  set p : Nat → Bool := fun off =>
    (alistGetD s.asked_questions_by_category
        (s.category_order.getD
          ((s.current_category_index + off) % s.category_order.length) "")).length
      == listMin (s.category_order.map
          (fun cat => (alistGetD s.asked_questions_by_category cat).length))
    with hp
  have hpA : p offA = true := by
    rw [hp]
    simp only [hoffAeq, hjD]
    exact beq_iff_eq.mpr hcmcnt
  have hiso := firstMatch_isSome p s.category_order.length 0 offA
    (Nat.zero_le _) (by omega) hpA
  obtain ⟨off0, hfm⟩ := Option.isSome_iff_exists.mp hiso
  obtain ⟨-, hofflt, hpoff, hmin⟩ := firstMatch_some_spec p _ _ _ hfm
  rw [hp] at hfm
  -- reduce the scheduler call to its balance branch
  unfold ask_next_screening_question
  rw [if_neg hnotcap, if_neg hord']
  dsimp only
  simp only [hnf, Bool.false_and, Bool.false_eq_true, if_false,
    alistGetD_asked0_eq]
  rw [hfm]
  dsimp only
  constructor
  · refine ⟨off0, by omega, rfl, ?_, ?_⟩
    · rw [hp] at hpoff
      simpa using hpoff
    · intro off' hlt'
      have hfalse := hmin off' (Nat.zero_le _) hlt'
      rw [hp] at hfalse
      simpa using hfalse
  · simp only [add_message_asked, add_message_cat_index]
    rw [alistGetD_setdefaultAppend_self, alistGetD_asked0_eq]

/-- Screening state with unbalanced counts used to witness claim C3: from
pointer 0 with counts Backend 2, Frontend 1, Data/ML 1, the scheduler must
pick Frontend (offset 1). -/
def c3_state : SessionState :=
  { init_session_state with
    state := .screening
    skill_categories := [("Backend", ["Python"]), ("Frontend", ["React"]),
                         ("Data/ML", ["SQL"])]
    category_order := ["Backend", "Frontend", "Data/ML"]
    asked_questions_by_category := [("Backend", ["B1", "B2"]), ("Frontend", ["F1"]),
                                    ("Data/ML", ["D1"])]
    answers := [("Backend", ["a1", "a2"]), ("Frontend", ["a3"]), ("Data/ML", ["a4"])]
    total_questions_asked := 4
    current_category_index := 0
    awaiting_followup := false }

/-- Claim C3 witness: the balanced selection instantiated at `c3_state`. -/
theorem c3_load_balanced_selection_witness :
    c3_state.awaiting_followup = false ∧
    first_min_from_pointer c3_state
      ((ask_next_screening_question (some "F2") c3_state).current_category_index) ∧
    alistGetD (ask_next_screening_question (some "F2")
          c3_state).asked_questions_by_category
        (c3_state.category_order.getD
          ((ask_next_screening_question (some "F2") c3_state).current_category_index) "")
      = alistGetD c3_state.asked_questions_by_category
          (c3_state.category_order.getD
            ((ask_next_screening_question (some "F2")
              c3_state).current_category_index) "")
          ++ ["F2"] :=
  ⟨rfl,
   (c3_load_balanced_selection "F2" c3_state (by decide) (by decide) rfl).1,
   (c3_load_balanced_selection "F2" c3_state (by decide) (by decide) rfl).2⟩

end SkillScout
